import Mathlib

/-!
Shallow embedding of `config_reader.py` (antiface/Utilities): a dict-based
`Config` type with dotted-path access and typed getters, three format
parsers, a parser registry, and a per-directory `CachedConfigReader` with
a per-file cache.  Python dicts are embedded as association lists with
unique keys, Python exceptions as an `Except PyError` result, and the
external parsing libraries (yaml / ConfigParser / the string-input side of
json) as function parameters, matching the statement of the spec that the
format grammars are external collaborators.
-/

/-- Python values as they occur in configuration trees: scalars
(string / int / float / bool), `None`, lists, and string-keyed dicts.
Floats are modelled as rationals. -/
inductive Value where
  | vstr : String → Value
  | vint : Int → Value
  | vfloat : Rat → Value
  | vbool : Bool → Value
  | vnone : Value
  | vlist : List Value → Value
  | vdict : List (String × Value) → Value
deriving Repr, Inhabited

/-- Python exceptions raised by the code under study. `configurationError`
carries the two positional arguments of the `ConfigurationError(msg, path)`
call in `read_config` (the source joins them with a comma, not `%`, so the
path stays a separate argument of the exception). -/
inductive PyError where
  | keyError : String → PyError
  | typeError : PyError
  | valueError : String → PyError
  | ioError : PyError
  | configurationError : String → String → PyError
deriving Repr, DecidableEq

/-- Association-list lookup, modelling Python `k in d` / `d[k]` on dicts
(keys are kept unique by `insertKey`/`delKey`). -/
def lookupStr {α : Type} : List (String × α) → String → Option α
  | [], _ => none
  | p :: l, k => if p.1 == k then some p.2 else lookupStr l k

/-- Assignment `d[k] = v` on a Python dict: replace the binding if the key
is present, append it otherwise. -/
def insertKey {α : Type} : List (String × α) → String → α → List (String × α)
  | [], k, v => [(k, v)]
  | p :: l, k, v => if p.1 == k then (k, v) :: l else p :: insertKey l k v

/-- Deletion `del d[k]` on a Python dict (the presence check is done by
callers). -/
def delKey {α : Type} : List (String × α) → String → List (String × α)
  | [], _ => []
  | p :: l, k => if p.1 == k then delKey l k else p :: delKey l k

/- String helpers written by structural recursion on `List Char`, so every
concrete evaluation reduces inside the kernel. -/

/-- Accumulator loop of `split`: cut the character list at every occurrence
of `c`. -/
def splitCharAux (c : Char) : List Char → List Char → List (List Char)
  | [], acc => [acc.reverse]
  | x :: xs, acc =>
    if x = c then acc.reverse :: splitCharAux c xs []
    else splitCharAux c xs (x :: acc)

/-- Python `s.split(c)` for a one-character separator: `"".split(".")`
gives `[""]`, and empty segments are kept. -/
def pySplit (s : String) (c : Char) : List String :=
  (splitCharAux c s.toList []).map (fun l => String.mk l)

example : pySplit "a.b.c" '.' = ["a", "b", "c"] := by decide
example : pySplit "" '.' = [""] := by decide
example : pySplit "ab" '.' = ["ab"] := by decide
example : pySplit "a..b" '.' = ["a", "", "b"] := by decide

/-- Python `path.rsplit(".", 1)[1]`: the suffix after the last dot, and `none`
when there is no dot (the Python code turns that into `IndexError`). -/
def rsplitExt (s : String) : Option String :=
  match pySplit s '.' with
  | [] => none
  | [_] => none
  | l => l.getLast?

example : rsplitExt "dir/app.json" = some "json" := by decide
example : rsplitExt "dir/app" = none := by decide

/-- Python `s.lower()` (ASCII case folding suffices for the registry
identifiers). -/
def pyLower (s : String) : String :=
  String.mk (s.toList.map Char.toLower)

/-- Python `s.startswith(pre)`. -/
def strStartsWith (s pre : String) : Bool :=
  pre.toList.isPrefixOf s.toList

/-- Python `needle in hay` on strings: substring containment. -/
def strIsInfixOf (needle hay : String) : Bool :=
  hay.toList.tails.any (fun t => needle.toList.isPrefixOf t)

example : strIsInfixOf "yaml" "# a yaml file" = true := by decide
example : strIsInfixOf "json" "# a yaml file" = false := by decide

/-- Python `f.readline()` on the whole file contents: the first line,
including its trailing newline when one is present. -/
def readline (s : String) : String :=
  match pySplit s '\n' with
  | [] => ""
  | p :: rest => if rest.isEmpty then p else p ++ "\n"

example : readline "#json\nkey: 1\n" = "#json\n" := by decide
example : readline "no newline" = "no newline" := by decide

/- ### The `Config` mapping type (`class Config(dict)`), lines 17-81 -/

/-- The payload of a `Config`: a dict from string keys to values. -/
abbrev ConfigDict := List (String × Value)

/-- Raw `dict.__getitem__(r, k)` as called inside `Config.__getitem__`: it
requires `r` to actually be a dict (`TypeError` otherwise, as when a
dotted path descends into a leaf), then looks the key up (`KeyError` when
absent). -/
def dictGetitem (r : Value) (k : String) : Except PyError Value :=
  match r with
  | .vdict d =>
    match lookupStr d k with
    | some v => .ok v
    | none => .error (.keyError k)
  | _ => .error .typeError

/-- Method `Config.__getitem__`: split the key on `"."` and descend one mapping
level per segment, starting from the config itself. -/
def getitem (c : ConfigDict) (key : String) : Except PyError Value :=
  (pySplit key '.').foldlM dictGetitem (Value.vdict c)

/-- Method `Config.get(k, d)`: return `self[k]`, turning `KeyError` into the
default; every other exception (notably the `TypeError` of descending
into a leaf) propagates. -/
def Config.get (c : ConfigDict) (k : String) (d : Value) : Except PyError Value :=
  match getitem c k with
  | .ok v => .ok v
  | .error (.keyError _) => .ok d
  | .error e => .error e

/-- The `"raise"` sentinel test `d == "raise"`: only the string compares
equal. -/
def Value.isRaise : Value → Bool
  | .vstr s => s == "raise"
  | _ => false

/-- All characters are decimal digits. -/
def allDigits (l : List Char) : Bool :=
  l.all Char.isDigit

/-- Numeric value of a digit string. -/
def digitsToNat (l : List Char) : Nat :=
  l.foldl (fun a c => a * 10 + (c.toNat - 48)) 0

/-- Python whitespace stripping as done by `int()` / `float()` on string
arguments. -/
def stripSpaces (l : List Char) : List Char :=
  ((l.dropWhile (· = ' ')).reverse.dropWhile (· = ' ')).reverse

/-- Builtin `int(s)` on a string: optional sign then decimal digits, `none` on
anything else (Python raises `ValueError` there). -/
def pyParseInt (s : String) : Option Int :=
  match stripSpaces s.toList with
  | '-' :: rest =>
    if rest != [] && allDigits rest then some (-(digitsToNat rest : Int)) else none
  | '+' :: rest =>
    if rest != [] && allDigits rest then some (digitsToNat rest : Int) else none
  | rest =>
    if rest != [] && allDigits rest then some (digitsToNat rest : Int) else none

example : pyParseInt "42" = some 42 := by decide
example : pyParseInt "-7" = some (-7) := by decide
example : pyParseInt "abc" = none := by decide
example : pyParseInt "1.5" = none := by decide

/-- Builtin `float(s)` on a string, restricted to plain decimal literals
(optional sign, digits, at most one dot); the exotic accepted forms
(exponents, `inf`, `nan`) are not modelled, no claim depends on them. -/
def pyParseFloat (s : String) : Option Rat :=
  let body := stripSpaces s.toList
  let (sign, digits) : Rat × List Char :=
    match body with
    | '-' :: rest => (-1, rest)
    | '+' :: rest => (1, rest)
    | rest => (1, rest)
  match splitCharAux '.' digits [] with
  | [a] =>
    if a != [] && allDigits a then some (sign * (digitsToNat a : Rat)) else none
  | [a, b] =>
    if (a != [] || b != []) && allDigits a && allDigits b then
      some (sign * ((digitsToNat a : Rat) + (digitsToNat b : Rat) / (10 ^ b.length)))
    else none
  | _ => none

example : (pyParseFloat "2.5").isSome = true := by decide
example : pyParseFloat "abc" = none := by decide

/-- The builtin `int(v)`: ints pass through, bools become 0/1, floats
truncate toward zero, strings are parsed (`ValueError` on failure), and
non-leaf values (`None`, lists, dicts) raise `TypeError`. -/
def pyIntOf : Value → Except PyError Int
  | .vint n => .ok n
  | .vbool b => .ok (if b then 1 else 0)
  | .vfloat q => .ok (q.num.tdiv (q.den : Int))
  | .vstr s =>
    match pyParseInt s with
    | some n => .ok n
    | none => .error (.valueError ("invalid literal for int: " ++ s))
  | .vnone => .error .typeError
  | .vlist _ => .error .typeError
  | .vdict _ => .error .typeError

/-- The builtin `float(v)`: like `pyIntOf` with a decimal-string parser. -/
def pyFloatOf : Value → Except PyError Rat
  | .vint n => .ok (n : Rat)
  | .vbool b => .ok (if b then 1 else 0)
  | .vfloat q => .ok q
  | .vstr s =>
    match pyParseFloat s with
    | some q => .ok q
    | none => .error (.valueError ("could not convert string to float: " ++ s))
  | .vnone => .error .typeError
  | .vlist _ => .error .typeError
  | .vdict _ => .error .typeError

/-- Method `Config.get_int(k, d)`: `int(self.get(k, d))` in a `try` that catches
only `TypeError`; on `TypeError`, the default is returned unless it is
the `"raise"` sentinel, which turns into
`ValueError("Not a leaf or not an integer: k")`.  A `ValueError` from
`int()` itself is not caught and propagates. -/
def Config.get_int (c : ConfigDict) (k : String) (d : Value) : Except PyError Value :=
  match (Config.get c k d).bind pyIntOf with
  | .ok n => .ok (.vint n)
  | .error .typeError =>
    if d.isRaise then .error (.valueError ("Not a leaf or not an integer: " ++ k))
    else .ok d
  | .error e => .error e

/-- Method `Config.get_float(k, d)`: same shape as `get_int` with `float()`. -/
def Config.get_float (c : ConfigDict) (k : String) (d : Value) : Except PyError Value :=
  match (Config.get c k d).bind pyFloatOf with
  | .ok q => .ok (.vfloat q)
  | .error .typeError =>
    if d.isRaise then .error (.valueError ("Not a leaf or not a float: " ++ k))
    else .ok d
  | .error e => .error e

/-- The example mapping of the spec for dotted lookup. -/
def cfgABC : ConfigDict :=
  [("a", .vdict [("b", .vdict [("c", .vint 5)])])]

example : Config.get cfgABC "a.b.c" .vnone = .ok (.vint 5) := rfl
example : Config.get cfgABC "a.b.x" (.vint 42) = .ok (.vint 42) := rfl
example : Config.get cfgABC "a.b.c.d" (.vint 9) = .error .typeError := rfl

/- ### Format parsers and the parser registry, lines 84-111 -/

/-- The three parser functions of the source (`yaml_parser`, `ini_parser`,
`json_parser`), represented as a closed enumeration; the registry maps two
identifiers (`"ini"`, `"conf"`) to the same `ini` member. -/
inductive ParserKind where
  | yaml
  | ini
  | json
deriving Repr, DecidableEq, BEq

/-- The `parser` argument accepted by `get_parser`: either a format
identifier string or one of the parser functions themselves. -/
inductive ParserArg where
  | name : String → ParserArg
  | fn : ParserKind → ParserArg
deriving Repr, DecidableEq

/-- Registry `parsers_dict`: the fixed registry table, in source order. -/
def parsers_dict : List (String × ParserKind) :=
  [("yaml", .yaml), ("ini", .ini), ("conf", .ini), ("json", .json)]

/-- Set `parsers_set` of the three parser functions, the identity
set used to detect a parser function passed directly. -/
def parsers_set : List ParserKind :=
  [.yaml, .ini, .json]

/-- The external world of the program: the file system (`open`, where
`none` means `IOError`) and the three parsing libraries, taken as
abstract collaborators per the spec (yaml.safe_load on the file's text,
the whole `RawConfigParser._read`-plus-section-cleanup pipeline, and
`json.loads` on string input). -/
structure PyEnv where
  fs : String → Option String
  yamlLoad : String → Except PyError Value
  iniRead : String → Except PyError Value
  jsonLoads : String → Except PyError Value

/-- A Python object being passed to `json.loads`: the bug under study is
that the source passes the open file object instead of its text. -/
inductive PyObj where
  | pstr : String → PyObj
  | pfile : String → PyObj

/-- Library call `json.loads(x)`: parses the string via the external library; applied
to a file object (or anything that is not a string) it raises
`TypeError`, because the decoder immediately runs a regex match over its
argument. -/
def jsonLoadsObj (loads : String → Except PyError Value) : PyObj → Except PyError Value
  | .pstr s => loads s
  | .pfile _ => .error .typeError

/-- Constructor `Config(x)` on the result of a parse (or on the `default` argument of
`read_config`): a dict argument populates the new `Config`; a non-dict
argument makes the `dict` constructor raise (modelled uniformly as
`TypeError`, which is exact for scalars and `None`). -/
def pyConfigOf : Value → Except PyError Value
  | .vdict d => .ok (.vdict d)
  | _ => .error .typeError

/-- Source function `yaml_parser(file)`: open the file (`IOError` when missing), run
`yaml.safe_load` on it and wrap the result in a `Config`. -/
def parseYamlFile (env : PyEnv) (file : String) : Except PyError Value :=
  match env.fs file with
  | none => .error .ioError
  | some text => (env.yamlLoad text).bind pyConfigOf

/-- Source function `ini_parser(file)`: open the file, run the ConfigParser `_read` and
section cleanup (abstracted as `env.iniRead`) and wrap the sections dict
in a `Config`. -/
def parseIniFile (env : PyEnv) (file : String) : Except PyError Value :=
  match env.fs file with
  | none => .error .ioError
  | some text => (env.iniRead text).bind pyConfigOf

/-- Source function `json_parser(file)`: open the file, then `json.loads(f)` — the source
passes the file object `f` itself, not `f.read()`, so the decoder raises
`TypeError` before reading anything. -/
def parseJsonFile (env : PyEnv) (file : String) : Except PyError Value :=
  match env.fs file with
  | none => .error .ioError
  | some text => jsonLoadsObj env.jsonLoads (PyObj.pfile text)

/-- Call `parser(path)`: run the parser function selected by the resolution
policy. -/
def runParserKind (env : PyEnv) : ParserKind → String → Except PyError Value
  | .yaml, file => parseYamlFile env file
  | .ini, file => parseIniFile env file
  | .json, file => parseJsonFile env file

/- ### `CachedConfigReader`, lines 114-190 -/

/-- A reader instance: owning directory, resolved instance default parser
(`self.default_parser`), and the per-file cache. -/
structure CachedConfigReader where
  config_dir : String
  defaultPk : ParserKind
  cache : List (String × Value)
deriving Repr

/-- Class attribute `CachedConfigReader.default_parser` (yaml), the class-level
default in force while `__init__` runs. -/
def classDefaultPk : ParserKind := ParserKind.yaml

/-- Method `get_parser(parser)`: `None` yields the default parser in scope; a
parser function found in `parsers_set` is returned as is; anything else
is looked up in `parsers_dict` (`KeyError` on an unknown identifier). -/
def getParser (defaultPk : ParserKind) : Option ParserArg → Except PyError ParserKind
  | none => .ok defaultPk
  | some (.fn p) =>
    if parsers_set.contains p then .ok p
    else .error (.keyError "unregistered parser function")
  | some (.name s) =>
    match lookupStr parsers_dict s with
    | some p => .ok p
    | none => .error (.keyError s)

/-- Method `get_parser_from_file(path)`: try the extension against the registry;
on `KeyError`/`IndexError` open the file (`IOError` propagates when it is
missing) and, if the first line is a `#` comment, return the first
registry entry whose identifier occurs in it as a substring; otherwise
keep the instance default parser. -/
def getParserFromFile (defaultPk : ParserKind) (fs : String → Option String)
    (path : String) : Except PyError ParserKind :=
  match rsplitExt path >>= lookupStr parsers_dict with
  | some p => .ok p
  | none =>
    match fs path with
    | none => .error .ioError
    | some text =>
      let firstLine := pyLower (readline text)
      if strStartsWith firstLine "#" then
        match parsers_dict.find? (fun kv => strIsInfixOf kv.1 firstLine) with
        | some kv => .ok kv.2
        | none => .ok defaultPk
      else .ok defaultPk

/-- Python `s.endswith(suf)`. -/
def strEndsWith (s suf : String) : Bool :=
  suf.toList.reverse.isPrefixOf s.toList.reverse

/-- Python `os.path.join(a, b)` for POSIX paths as used here. -/
def osPathJoin (a b : String) : String :=
  if strStartsWith b "/" then b
  else if a = "" then b
  else if strEndsWith a "/" then a ++ b
  else a ++ "/" ++ b

example : osPathJoin "/etc/app" "conf.json" = "/etc/app/conf.json" := by decide

/-- Python truthiness of the `parser` argument in
the `if parser:` test of `read_config`: `None` and the empty string are falsy,
parser functions and non-empty names are truthy. -/
def truthyArg : Option ParserArg → Bool
  | none => false
  | some (.name s) => s != ""
  | some (.fn _) => true

/-- Python truthiness of the `config` argument in the `if config:` test
of `reload`. -/
def truthyStr : Option String → Bool
  | none => false
  | some s => s != ""

/-- Outcome of one `read_config` call on the embedded state: the returned
value or raised exception, the reader afterwards, and the list of parser
invocations (`parser(path)` calls) the call performed. -/
structure ReadResult where
  result : Except PyError Value
  reader : CachedConfigReader
  calls : List (ParserKind × String)
deriving Repr

/-- The `except IOError:` handler of `read_config`: with the `"raise"`
sentinel, raise `ConfigurationError("Configuration file not found: %s",
path)` (state untouched); otherwise store and return `Config(default)`
(whose constructor itself raises on a non-dict default, leaving the cache
untouched). -/
def handleIOError (self : CachedConfigReader) (config path : String)
    (default : Value) (calls : List (ParserKind × String)) : ReadResult :=
  if default.isRaise then
    { result := .error (.configurationError "Configuration file not found: %s" path)
      reader := self
      calls := calls }
  else
    match pyConfigOf default with
    | .ok v =>
      { result := .ok v
        reader := { self with cache := insertKey self.cache config v }
        calls := calls }
    | .error e => { result := .error e, reader := self, calls := calls }

/-- Continuation of the try-block of `read_config` once the parser resolution
step has produced a result: an `IOError` from the resolution (the
first-line sniffing `open` on a missing file) goes to the default
handling; a `KeyError` from `get_parser` propagates; a resolved parser is
invoked on the path, its successful result is cached, its `IOError` goes
to the default handling, and any other of its failures propagates. -/
def invokeResolved (env : PyEnv) (self : CachedConfigReader) (config path : String)
    (default : Value) : Except PyError ParserKind → ReadResult
  | .error .ioError => handleIOError self config path default []
  | .error e => { result := .error e, reader := self, calls := [] }
  | .ok p =>
    match runParserKind env p path with
    | .ok v =>
      { result := .ok v
        reader := { self with cache := insertKey self.cache config v }
        calls := [(p, path)] }
    | .error .ioError => handleIOError self config path default [(p, path)]
    | .error e => { result := .error e, reader := self, calls := [(p, path)] }

/-- The body of `read_config` under `if config not in self.cache`:
resolve the parser (explicit argument if truthy, else the file-based
policy), then continue with `invokeResolved`. -/
def readConfigUncached (env : PyEnv) (self : CachedConfigReader) (config : String)
    (parser : Option ParserArg) (default : Value) : ReadResult :=
  let path := osPathJoin self.config_dir config
  invokeResolved env self config path default
    (if truthyArg parser then getParser self.defaultPk parser
     else getParserFromFile self.defaultPk env.fs path)

/-- Method `read_config(config, parser=None, default=dict())`: serve a cached entry
as is, otherwise run the uncached body. -/
def read_config (env : PyEnv) (self : CachedConfigReader) (config : String)
    (parser : Option ParserArg) (default : Value) : ReadResult :=
  match lookupStr self.cache config with
  | some v => { result := .ok v, reader := self, calls := [] }
  | none => readConfigUncached env self config parser default

/-- Method `reload(config=None)` (aliases `reset`, `clear`): with a truthy name,
`del self.cache[config]` (`KeyError` when absent); with `None` — or the
falsy empty string — replace the whole cache with `{}`. -/
def reload (self : CachedConfigReader) (config : Option String) :
    Except PyError CachedConfigReader :=
  if truthyStr config then
    match config with
    | some c =>
      if (lookupStr self.cache c).isSome then
        .ok { self with cache := delKey self.cache c }
      else .error (.keyError c)
    | none => .ok { self with cache := [] }
  else .ok { self with cache := [] }

/-- Constructor `CachedConfigReader.__init__(config_dir, parser)`: resolve the
instance default parser via `get_parser` while the class default (yaml)
is still in scope, and start with an empty cache.  A bad parser
identifier makes construction itself raise `KeyError`. -/
def mkReader (config_dir : String) (parser : Option ParserArg) :
    Except PyError CachedConfigReader :=
  (getParser classDefaultPk parser).map
    (fun p => { config_dir := config_dir, defaultPk := p, cache := [] })

/-- The process-wide `CachedConfigReader.dir_cache` registry: absolute
directory path to reader instance. -/
abbrev DirCache := List (String × CachedConfigReader)

/-- Class method `get_instance(config_dir, parser=None)`: normalize the directory with
`os.path.abspath` (taken as an abstract parameter), create and register a
reader on the first request for that path, and return the registered
reader afterwards — ignoring the `parser` argument once the instance
exists. -/
def get_instance (abspath : String → String) (dc : DirCache)
    (config_dir : String) (parser : Option ParserArg) :
    Except PyError (CachedConfigReader × DirCache) :=
  match lookupStr dc (abspath config_dir) with
  | some r => .ok (r, dc)
  | none =>
    (mkReader (abspath config_dir) parser).map
      (fun r => (r, insertKey dc (abspath config_dir) r))

/- ### Concrete fixtures used by witnesses and counterexamples -/

/-- Containers in the sense of the numeric getters: values on which the
builtin coercions raise `TypeError` because they are a mapping or a
sequence rather than a leaf. -/
def Value.isContainer : Value → Bool
  | .vdict _ => true
  | .vlist _ => true
  | _ => false

/-- Witness environment for C2: one readable file `app.json` holding a
valid JSON object, and a json library that would parse it fine if it were
ever given the text. -/
def envJson : PyEnv where
  fs := fun p => if p = "app.json" then some "\x7b\"k\": 1\x7d" else none
  yamlLoad := fun _ => .ok (.vdict [])
  iniRead := fun _ => .ok (.vdict [])
  jsonLoads := fun _ => .ok (.vdict [("k", .vint 1)])

/-- A fresh reader for directory `/etc/app` with the class default parser
and an empty cache. -/
def reader0 : CachedConfigReader where
  config_dir := "/etc/app"
  defaultPk := ParserKind.yaml
  cache := []

/-- An environment with no readable files at all: every `open` raises
`IOError`. -/
def envNone : PyEnv where
  fs := fun _ => none
  yamlLoad := fun _ => .error (.valueError "unused")
  iniRead := fun _ => .error (.valueError "unused")
  jsonLoads := fun _ => .error (.valueError "unused")

/-- An environment with one readable YAML file under `/etc/app`. -/
def envYaml : PyEnv where
  fs := fun p => if p = "/etc/app/app.yaml" then some "k: 1\n" else none
  yamlLoad := fun _ => .ok (.vdict [("k", .vint 1)])
  iniRead := fun _ => .error (.valueError "unused")
  jsonLoads := fun _ => .error (.valueError "unused")

/-- The reader of `reader0` after a successful read of `app.yaml`. -/
def readerAfterYaml : CachedConfigReader where
  config_dir := "/etc/app"
  defaultPk := ParserKind.yaml
  cache := [("app.yaml", Value.vdict [("k", Value.vint 1)])]

/-- A reader with two cached entries under distinct non-empty names. -/
def readerTwo : CachedConfigReader where
  config_dir := "/etc/app"
  defaultPk := ParserKind.yaml
  cache := [("app.yaml", Value.vdict []), ("other.conf", Value.vdict [("k", Value.vint 2)])]

/-- A reader whose cache holds an entry under the empty name `""` next to
an ordinary entry (the empty name is cacheable: reading `""` joins to the
directory itself, whose `open` fails, and the default is cached). -/
def readerEmptyName : CachedConfigReader where
  config_dir := "/etc/app"
  defaultPk := ParserKind.yaml
  cache := [("", Value.vdict []), ("other.conf", Value.vdict [("k", Value.vint 2)])]

/- ### Helper lemmas about the dict model -/

theorem lookupStr_insertKey {α : Type} (l : List (String × α)) (k : String) (v : α) :
    lookupStr (insertKey l k v) k = some v := by
  induction l with
  | nil => simp [insertKey, lookupStr]
  | cons hd tl ih =>
    by_cases hk : hd.1 == k
    · simp [insertKey, lookupStr, hk]
    · have hk' : (hd.1 == k) = false := by simpa using hk
      simpa [insertKey, lookupStr, hk'] using ih

theorem lookupStr_delKey_self {α : Type} (l : List (String × α)) (k : String) :
    lookupStr (delKey l k) k = none := by
  induction l with
  | nil => rfl
  | cons hd tl ih =>
    by_cases hk : hd.1 == k
    · simpa [delKey, hk] using ih
    · have hk' : (hd.1 == k) = false := by simpa using hk
      simpa [delKey, lookupStr, hk'] using ih

theorem lookupStr_delKey_ne {α : Type} (l : List (String × α)) (k k' : String)
    (h : k' ≠ k) :
    lookupStr (delKey l k) k' = lookupStr l k' := by
  induction l with
  | nil => rfl
  | cons hd tl ih =>
    by_cases hk : hd.1 == k
    · have hdk : hd.1 = k := by simpa using hk
      have hne : (hd.1 == k') = false := by
        simp [hdk]
        exact fun hkk => h hkk.symm
      simpa [delKey, lookupStr, hk, hne] using ih
    · have hk' : (hd.1 == k) = false := by simpa using hk
      by_cases he : hd.1 == k'
      · simp [delKey, lookupStr, hk', he]
      · have he' : (hd.1 == k') = false := by simpa using he
        simpa [delKey, lookupStr, hk', he'] using ih

theorem pyIntOf_container (v : Value) (h : v.isContainer = true) :
    pyIntOf v = .error .typeError := by
  cases v <;> simp [Value.isContainer] at h <;> rfl

theorem pyFloatOf_container (v : Value) (h : v.isContainer = true) :
    pyFloatOf v = .error .typeError := by
  cases v <;> simp [Value.isContainer] at h <;> rfl

/- ### Claim theorems -/

/-- C1 counterexample: on the example mapping of the spec, descending through the
leaf `5` with `get("a.b.c.d", default=9)` does not return the default
`9` — the `TypeError` raised by `dict.__getitem__` is not caught by
`get`, which only recovers `KeyError`. -/
theorem claim_C1_cex :
    Config.get cfgABC "a.b.c.d" (Value.vint 9) ≠ .ok (Value.vint 9) := by
  intro h
  exact Except.noConfusion h

/-- C1 (amended): `get(path, default)` returns the caller-supplied default
whenever lookup fails with *NotFound* (a missing segment), and on the
mapping `a: (b: (c: 5))` we get `get("a.b.c") = 5` and
`get("a.b.x", default=42) = 42`; but when an intermediate segment
resolves to a leaf, `get` propagates the `TypeError` instead of returning
the default, so `get("a.b.c.d", default=9)` raises. -/
theorem claim_C1_get_notfound_default (c : ConfigDict) (k s : String) (d : Value)
    (h : getitem c k = .error (.keyError s)) :
    Config.get c k d = .ok d
    ∧ Config.get cfgABC "a.b.c" .vnone = .ok (.vint 5)
    ∧ Config.get cfgABC "a.b.x" (.vint 42) = .ok (.vint 42)
    ∧ Config.get cfgABC "a.b.c.d" (.vint 9) = .error .typeError := by
  refine ⟨?_, rfl, rfl, rfl⟩
  unfold Config.get
  rw [h]

/-- Witness for C1: the amended theorem applied to the example mapping at
the missing path `a.b.x`, whose lookup fails with `KeyError("x")`. -/
theorem claim_C1_witness :
    Config.get cfgABC "a.b.x" (Value.vint 42) = .ok (Value.vint 42) :=
  (claim_C1_get_notfound_default cfgABC "a.b.x" "x" (Value.vint 42) rfl).1

/-- C2 (code bug): `json_parser` opens the file and then calls
`json.loads(f)` on the file object itself instead of on its contents, so
for every readable file — valid JSON object or not — the decoder raises
`TypeError` instead of returning the parsed `Config`. -/
theorem claim_C2_json_loads_file_object (env : PyEnv) (file text : String)
    (h : env.fs file = some text) :
    parseJsonFile env file = .error .typeError := by
  unfold parseJsonFile
  rw [h]
  rfl

/-- Witness for C2: the bug theorem evaluated on the concrete readable
JSON file. -/
theorem claim_C2_witness :
    parseJsonFile envJson "app.json" = .error .typeError :=
  claim_C2_json_loads_file_object envJson "app.json" "\x7b\"k\": 1\x7d" rfl

/-- C3 counterexample: on the mapping `k: "abc"`, the leaf string
`"abc"` cannot be coerced to an integer, yet `get_int("k", default=7)`
does not return the default `7` — `int("abc")` raises `ValueError`,
which the getter's `except TypeError` clause does not catch. -/
theorem claim_C3_cex :
    Config.get_int [("k", Value.vstr "abc")] "k" (Value.vint 7) ≠ .ok (Value.vint 7) := by
  intro h
  exact Except.noConfusion h

/-- C3 (amended): when the resolved value is a mapping or a sequence (so
the coercion raises `TypeError`), `get_int`/`get_float` return the
caller-supplied default unchanged, unless the default is the literal
string `"raise"`, in which case they fail with a `ValueError` naming the
offending key; a *leaf* value that cannot be coerced (an unparseable
string) instead raises `ValueError` from the coercion itself, regardless
of the default. -/
theorem claim_C3_get_numeric_container (c : ConfigDict) (k : String) (d v : Value)
    (hv : Config.get c k d = .ok v) (hc : v.isContainer = true) :
    (d.isRaise = false →
      Config.get_int c k d = .ok d ∧ Config.get_float c k d = .ok d)
    ∧ (d.isRaise = true →
      Config.get_int c k d = .error (.valueError ("Not a leaf or not an integer: " ++ k))
      ∧ Config.get_float c k d = .error (.valueError ("Not a leaf or not a float: " ++ k))) := by
  have hi : (Config.get c k d).bind pyIntOf = .error .typeError := by
    rw [hv]
    exact pyIntOf_container v hc
  have hf : (Config.get c k d).bind pyFloatOf = .error .typeError := by
    rw [hv]
    exact pyFloatOf_container v hc
  have gi : Config.get_int c k d =
      if d.isRaise then .error (.valueError ("Not a leaf or not an integer: " ++ k))
      else .ok d := by
    unfold Config.get_int
    rw [hi]
  have gf : Config.get_float c k d =
      if d.isRaise then .error (.valueError ("Not a leaf or not a float: " ++ k))
      else .ok d := by
    unfold Config.get_float
    rw [hf]
  constructor
  · intro hd
    rw [gi, gf, hd]
    exact ⟨by simp, by simp⟩
  · intro hd
    rw [gi, gf, hd]
    exact ⟨by simp, by simp⟩

/-- Witness for C3: on the mapping `k: []` (a sequence leaf is still not
coercible), `get_int`/`get_float` with default `7` return `7`. -/
theorem claim_C3_witness :
    Config.get_int [("k", Value.vlist [])] "k" (Value.vint 7) = .ok (Value.vint 7)
    ∧ Config.get_float [("k", Value.vlist [])] "k" (Value.vint 7) = .ok (Value.vint 7) :=
  (claim_C3_get_numeric_container [("k", Value.vlist [])] "k" (Value.vint 7)
    (Value.vlist []) rfl rfl).1 rfl

/- ### Helper lemmas about the reader state machine -/

theorem handleIOError_calls (self : CachedConfigReader) (config path : String)
    (d : Value) (calls : List (ParserKind × String)) :
    (handleIOError self config path d calls).calls = calls := by
  unfold handleIOError
  split
  · rfl
  · split <;> rfl

theorem handleIOError_ok_cached (self : CachedConfigReader) (config path : String)
    (d : Value) (calls calls' : List (ParserKind × String)) (v : Value)
    (rdr : CachedConfigReader)
    (h : handleIOError self config path d calls = ⟨.ok v, rdr, calls'⟩) :
    lookupStr rdr.cache config = some v := by
  unfold handleIOError at h
  by_cases hr : d.isRaise
  · rw [if_pos hr] at h
    simp at h
  · rw [if_neg hr] at h
    cases hc : pyConfigOf d with
    | ok w =>
      rw [hc] at h
      simp only [ReadResult.mk.injEq, Except.ok.injEq] at h
      obtain ⟨rfl, rfl, rfl⟩ := h
      exact lookupStr_insertKey self.cache config w
    | error e =>
      rw [hc] at h
      simp at h

theorem handleIOError_error_state (self : CachedConfigReader) (config path : String)
    (d : Value) (calls calls' : List (ParserKind × String)) (e : PyError)
    (rdr : CachedConfigReader)
    (h : handleIOError self config path d calls = ⟨.error e, rdr, calls'⟩) :
    rdr = self := by
  unfold handleIOError at h
  by_cases hr : d.isRaise
  · rw [if_pos hr] at h
    simp only [ReadResult.mk.injEq] at h
    exact h.2.1.symm
  · rw [if_neg hr] at h
    cases hc : pyConfigOf d with
    | ok w => rw [hc] at h; simp at h
    | error e' =>
      rw [hc] at h
      simp only [ReadResult.mk.injEq] at h
      exact h.2.1.symm

theorem invokeResolved_ok_cached (env : PyEnv) (R : CachedConfigReader)
    (N path : String) (d : Value) (r : Except PyError ParserKind) (v : Value)
    (R' : CachedConfigReader) (calls : List (ParserKind × String))
    (h : invokeResolved env R N path d r = ⟨.ok v, R', calls⟩) :
    lookupStr R'.cache N = some v := by
  cases r with
  | error e =>
    cases e with
    | ioError => exact handleIOError_ok_cached R N path d [] calls v R' h
    | keyError s => simp [invokeResolved] at h
    | typeError => simp [invokeResolved] at h
    | valueError s => simp [invokeResolved] at h
    | configurationError s t => simp [invokeResolved] at h
  | ok pk =>
    simp only [invokeResolved] at h
    cases hrun : runParserKind env pk path with
    | ok w =>
      rw [hrun] at h
      simp only [ReadResult.mk.injEq, Except.ok.injEq] at h
      obtain ⟨rfl, rfl, rfl⟩ := h
      exact lookupStr_insertKey R.cache N w
    | error e =>
      rw [hrun] at h
      cases e with
      | ioError => exact handleIOError_ok_cached R N path d _ calls v R' h
      | keyError s => simp at h
      | typeError => simp at h
      | valueError s => simp at h
      | configurationError s t => simp at h

theorem invokeResolved_error_state (env : PyEnv) (R : CachedConfigReader)
    (N path : String) (d : Value) (r : Except PyError ParserKind) (e : PyError)
    (R' : CachedConfigReader) (calls : List (ParserKind × String))
    (h : invokeResolved env R N path d r = ⟨.error e, R', calls⟩) :
    R' = R := by
  cases r with
  | error e' =>
    cases e' with
    | ioError => exact handleIOError_error_state R N path d [] calls e R' h
    | keyError s =>
      simp only [invokeResolved, ReadResult.mk.injEq] at h
      exact h.2.1.symm
    | typeError =>
      simp only [invokeResolved, ReadResult.mk.injEq] at h
      exact h.2.1.symm
    | valueError s =>
      simp only [invokeResolved, ReadResult.mk.injEq] at h
      exact h.2.1.symm
    | configurationError s t =>
      simp only [invokeResolved, ReadResult.mk.injEq] at h
      exact h.2.1.symm
  | ok pk =>
    simp only [invokeResolved] at h
    cases hrun : runParserKind env pk path with
    | ok w =>
      rw [hrun] at h
      simp at h
    | error e' =>
      rw [hrun] at h
      cases e' with
      | ioError => exact handleIOError_error_state R N path d _ calls e R' h
      | keyError s =>
        simp only [ReadResult.mk.injEq] at h
        exact h.2.1.symm
      | typeError =>
        simp only [ReadResult.mk.injEq] at h
        exact h.2.1.symm
      | valueError s =>
        simp only [ReadResult.mk.injEq] at h
        exact h.2.1.symm
      | configurationError s t =>
        simp only [ReadResult.mk.injEq] at h
        exact h.2.1.symm

theorem readConfigUncached_ok_cached (env : PyEnv) (R : CachedConfigReader)
    (N : String) (p : Option ParserArg) (d v : Value) (R' : CachedConfigReader)
    (calls : List (ParserKind × String))
    (h : readConfigUncached env R N p d = ⟨.ok v, R', calls⟩) :
    lookupStr R'.cache N = some v :=
  invokeResolved_ok_cached env R N (osPathJoin R.config_dir N) d _ v R' calls h

theorem readConfigUncached_error_state (env : PyEnv) (R : CachedConfigReader)
    (N : String) (p : Option ParserArg) (d : Value) (e : PyError)
    (R' : CachedConfigReader) (calls : List (ParserKind × String))
    (h : readConfigUncached env R N p d = ⟨.error e, R', calls⟩) :
    R' = R :=
  invokeResolved_error_state env R N (osPathJoin R.config_dir N) d _ e R' calls h

theorem read_config_ok_cached (env : PyEnv) (R : CachedConfigReader) (N : String)
    (p : Option ParserArg) (d v : Value) (R' : CachedConfigReader)
    (calls : List (ParserKind × String))
    (h : read_config env R N p d = ⟨.ok v, R', calls⟩) :
    lookupStr R'.cache N = some v := by
  unfold read_config at h
  cases hl : lookupStr R.cache N with
  | some w =>
    rw [hl] at h
    simp only [ReadResult.mk.injEq, Except.ok.injEq] at h
    obtain ⟨rfl, rfl, rfl⟩ := h
    exact hl
  | none =>
    rw [hl] at h
    exact readConfigUncached_ok_cached env R N p d v R' calls h

theorem invokeResolved_calls_len (env : PyEnv) (R : CachedConfigReader)
    (N path : String) (d : Value) (r : Except PyError ParserKind) :
    (invokeResolved env R N path d r).calls.length ≤ 1 := by
  cases r with
  | error e =>
    cases e <;> simp [invokeResolved, handleIOError_calls]
  | ok pk =>
    simp only [invokeResolved]
    cases hrun : runParserKind env pk path with
    | ok w => simp
    | error e => cases e <;> simp [handleIOError_calls]

theorem read_config_calls_len (env : PyEnv) (R : CachedConfigReader) (N : String)
    (p : Option ParserArg) (d : Value) :
    (read_config env R N p d).calls.length ≤ 1 := by
  unfold read_config
  cases hl : lookupStr R.cache N with
  | some w => simp
  | none => exact invokeResolved_calls_len env R N (osPathJoin R.config_dir N) d _

theorem runParserKind_missing (env : PyEnv) (p : ParserKind) (path : String)
    (h : env.fs path = none) :
    runParserKind env p path = .error .ioError := by
  cases p <;> simp [runParserKind, parseYamlFile, parseIniFile, parseJsonFile, h]

theorem getParserFromFile_missing (dp : ParserKind) (fs : String → Option String)
    (path : String) (hfs : fs path = none) :
    getParserFromFile dp fs path = .error .ioError
    ∨ ∃ p, getParserFromFile dp fs path = .ok p := by
  unfold getParserFromFile
  cases hopt : rsplitExt path >>= lookupStr parsers_dict with
  | some p => exact Or.inr ⟨p, rfl⟩
  | none =>
    left
    rw [hfs]

theorem read_config_missing_to_handler (env : PyEnv) (R : CachedConfigReader)
    (N : String) (d : Value)
    (hmiss : lookupStr R.cache N = none)
    (hfile : env.fs (osPathJoin R.config_dir N) = none) :
    ∃ calls, read_config env R N none d =
      handleIOError R N (osPathJoin R.config_dir N) d calls := by
  unfold read_config
  rw [hmiss]
  show ∃ calls, invokeResolved env R N (osPathJoin R.config_dir N) d
      (getParserFromFile R.defaultPk env.fs (osPathJoin R.config_dir N)) =
    handleIOError R N (osPathJoin R.config_dir N) d calls
  rcases getParserFromFile_missing R.defaultPk env.fs _ hfile with h | ⟨p, h⟩
  · rw [h]
    exact ⟨[], rfl⟩
  · rw [h]
    refine ⟨[(p, osPathJoin R.config_dir N)], ?_⟩
    simp only [invokeResolved]
    rw [runParserKind_missing env p _ hfile]

theorem handleIOError_raise_eval (self : CachedConfigReader) (config path : String)
    (calls : List (ParserKind × String)) :
    handleIOError self config path (Value.vstr "raise") calls =
      ⟨.error (.configurationError "Configuration file not found: %s" path),
        self, calls⟩ := rfl

theorem handleIOError_dict_eval (self : CachedConfigReader) (config path : String)
    (l : List (String × Value)) (calls : List (ParserKind × String)) :
    handleIOError self config path (Value.vdict l) calls =
      ⟨.ok (.vdict l),
        { self with cache := insertKey self.cache config (.vdict l) }, calls⟩ := rfl

/-- C4 counterexample: with a non-mapping default (`default=5`) on a
missing file, `read_config` does not return a Typed Value Mapping built
from the default — `Config(5)` raises `TypeError` — and nothing is
cached. -/
theorem claim_C4_cex :
    (read_config envNone reader0 "conf" none (Value.vint 5)).result = .error .typeError
    ∧ (read_config envNone reader0 "conf" none (Value.vint 5)).reader = reader0 :=
  ⟨rfl, rfl⟩

/-- C4 (amended): for a missing or unreadable file, `read_config(name,
default="raise")` fails with `ConfigurationError` carrying the attempted
path, leaving the reader unchanged; and for any *mapping* default `D`,
`read_config(name, default=D)` returns the Typed Value Mapping built from
`D` and caches it under the name.  (A non-mapping, non-sentinel default
instead makes the `dict` constructor raise, as the counterexample
shows.) -/
theorem claim_C4_missing_file (env : PyEnv) (R : CachedConfigReader) (N : String)
    (l : List (String × Value))
    (hmiss : lookupStr R.cache N = none)
    (hfile : env.fs (osPathJoin R.config_dir N) = none) :
    (read_config env R N none (Value.vstr "raise")).result =
      .error (.configurationError "Configuration file not found: %s"
        (osPathJoin R.config_dir N))
    ∧ (read_config env R N none (Value.vstr "raise")).reader = R
    ∧ (read_config env R N none (Value.vdict l)).result = .ok (.vdict l)
    ∧ (read_config env R N none (Value.vdict l)).reader =
        { R with cache := insertKey R.cache N (.vdict l) } := by
  obtain ⟨c1, h1⟩ := read_config_missing_to_handler env R N (Value.vstr "raise") hmiss hfile
  obtain ⟨c2, h2⟩ := read_config_missing_to_handler env R N (Value.vdict l) hmiss hfile
  rw [h1, h2, handleIOError_raise_eval, handleIOError_dict_eval]
  exact ⟨rfl, rfl, rfl, rfl⟩

/-- Witness for C4: under the file-less environment, a strict read of
`conf` raises `ConfigurationError` with the path `/etc/app/conf`, and a
read with default mapping `k: 1` returns that mapping. -/
theorem claim_C4_witness :
    (read_config envNone reader0 "conf" none (Value.vstr "raise")).result =
      .error (.configurationError "Configuration file not found: %s" "/etc/app/conf")
    ∧ (read_config envNone reader0 "conf" none
        (Value.vdict [("k", Value.vint 1)])).result =
      .ok (.vdict [("k", Value.vint 1)]) := by
  have h := claim_C4_missing_file envNone reader0 "conf" [("k", Value.vint 1)] rfl rfl
  exact ⟨h.1, h.2.2.1⟩

theorem getParser_truthy (dp : ParserKind) (a : ParserArg) (p : ParserKind)
    (h : getParser dp (some a) = .ok p) : truthyArg (some a) = true := by
  cases a with
  | fn q => rfl
  | name s =>
    by_cases hs : s = ""
    · subst hs
      exact Except.noConfusion h
    · simp [truthyArg, hs]

/-- C5 (confirmed): whenever `read_config` is given an explicit parser
argument that `get_parser` resolves (a registry identifier or a parser
function), the resolved parser is the one invoked on the joined path —
whatever the file's extension or contents; the extension-based and
sniffing rules are never consulted. -/
theorem claim_C5_explicit_parser_wins (env : PyEnv) (R : CachedConfigReader)
    (N : String) (a : ParserArg) (p : ParserKind) (d : Value)
    (hres : getParser R.defaultPk (some a) = .ok p)
    (hmiss : lookupStr R.cache N = none) :
    (read_config env R N (some a) d).calls = [(p, osPathJoin R.config_dir N)] := by
  have ht := getParser_truthy R.defaultPk a p hres
  unfold read_config
  rw [hmiss]
  show (invokeResolved env R N (osPathJoin R.config_dir N) d
      (if truthyArg (some a) then getParser R.defaultPk (some a)
       else getParserFromFile R.defaultPk env.fs (osPathJoin R.config_dir N))).calls =
    [(p, osPathJoin R.config_dir N)]
  rw [ht]
  simp only [if_true]
  rw [hres]
  simp only [invokeResolved]
  cases hrun : runParserKind env p (osPathJoin R.config_dir N) with
  | ok w => rfl
  | error e =>
    cases e with
    | ioError => rw [handleIOError_calls]
    | keyError s => rfl
    | typeError => rfl
    | valueError s => rfl
    | configurationError s t => rfl

/-- Witness for C5: a file named `app.json` (JSON extension) read with the
explicit argument `parser="yaml"` invokes the YAML parser on
`/etc/app/app.json`. -/
theorem claim_C5_witness :
    (read_config envNone reader0 "app.json" (some (ParserArg.name "yaml"))
      (Value.vdict [])).calls = [(ParserKind.yaml, "/etc/app/app.json")] :=
  claim_C5_explicit_parser_wins envNone reader0 "app.json" (ParserArg.name "yaml")
    ParserKind.yaml (Value.vdict []) rfl rfl

/-- C6 (confirmed): once `get_instance(D)` has returned a reader for a
directory (normalized through `abspath`), any later `get_instance(D)`
call — with an arbitrary, possibly different `parser` argument — returns
the identical registered reader and leaves the registry unchanged. -/
theorem claim_C6_singleton_per_path (abspath : String → String) (dc dc' : DirCache)
    (D : String) (p₁ p₂ : Option ParserArg) (r : CachedConfigReader)
    (h : get_instance abspath dc D p₁ = .ok (r, dc')) :
    get_instance abspath dc' D p₂ = .ok (r, dc') := by
  unfold get_instance at h ⊢
  cases hl : lookupStr dc (abspath D) with
  | some r0 =>
    rw [hl] at h
    simp only [Except.ok.injEq, Prod.mk.injEq] at h
    obtain ⟨rfl, rfl⟩ := h
    rw [hl]
  | none =>
    rw [hl] at h
    cases hm : mkReader (abspath D) p₁ with
    | error e =>
      rw [hm] at h
      simp [Except.map] at h
    | ok r0 =>
      rw [hm] at h
      simp only [Except.map, Except.ok.injEq, Prod.mk.injEq] at h
      obtain ⟨rfl, rfl⟩ := h
      rw [lookupStr_insertKey]

/-- Witness for C6: creating the reader for `/etc/app` and asking again
with a different parser argument returns the same reader and registry. -/
theorem claim_C6_witness :
    get_instance id [("/etc/app", reader0)] "/etc/app"
        (some (ParserArg.name "json")) =
      .ok (reader0, [("/etc/app", reader0)]) :=
  claim_C6_singleton_per_path id [] [("/etc/app", reader0)] "/etc/app" none
    (some (ParserArg.name "json")) reader0 rfl

/-- C7 (confirmed): after a `read_config` call returns a value, a second
`read_config` for the same name — with arbitrary parser and default
arguments — returns the identical cached Typed Value Mapping, changes
nothing, and performs no parser invocation; and the first call invoked
the parser at most once. -/
theorem claim_C7_cached_no_reparse (env : PyEnv) (R R' : CachedConfigReader)
    (N : String) (p₁ p₂ : Option ParserArg) (d₁ d₂ v : Value)
    (calls : List (ParserKind × String))
    (h : read_config env R N p₁ d₁ = ⟨.ok v, R', calls⟩) :
    read_config env R' N p₂ d₂ = ⟨.ok v, R', []⟩ ∧ calls.length ≤ 1 := by
  constructor
  · have hc := read_config_ok_cached env R N p₁ d₁ v R' calls h
    unfold read_config
    rw [hc]
  · have hlen := read_config_calls_len env R N p₁ d₁
    rw [h] at hlen
    exact hlen

/-- Witness for C7: after `reader0` reads `app.yaml` once (one parser
invocation), the repeated read returns the same mapping from cache with
no parser call. -/
theorem claim_C7_witness :
    read_config envYaml readerAfterYaml "app.yaml" none (Value.vdict []) =
      ⟨.ok (.vdict [("k", Value.vint 1)]), readerAfterYaml, []⟩ :=
  (claim_C7_cached_no_reparse envYaml reader0 readerAfterYaml "app.yaml" none none
    (Value.vdict []) (Value.vdict []) (Value.vdict [("k", Value.vint 1)])
    [(ParserKind.yaml, "/etc/app/app.yaml")] rfl).1

/-- C8 counterexample: the empty string is a legal cache name (reading
`""` caches the default), but `reload("")` falls into the falsy branch of
`if config:` and clears the *entire* cache — the unrelated entry
`other.conf` is evicted too, instead of only the entry for `""`. -/
theorem claim_C8_cex :
    reload readerEmptyName (some "") = .ok { readerEmptyName with cache := [] }
    ∧ reload readerEmptyName (some "") ≠
        .ok { readerEmptyName with cache := delKey readerEmptyName.cache "" } := by
  refine ⟨rfl, fun h => ?_⟩
  injection h with h'
  exact List.noConfusion (congrArg CachedConfigReader.cache h')

/-- C8 (amended): for a *non-empty* name present in the cache,
`reload(N)` evicts exactly the entry for `N`: its lookup afterwards is
`none` while every other name's lookup is unchanged, so a following
`read_config(N)` goes through the uncached path (resolution and parsing)
again; `reload()` with no argument empties this reader's whole cache.
Readers are separate values of the registry, so no other reader's cache
is touched.  (For the empty name, `reload("")` behaves like `reload()`
and clears everything, as the counterexample shows.) -/
theorem claim_C8_reload_evicts (R : CachedConfigReader) (N : String) (v : Value)
    (hN : N ≠ "") (hv : lookupStr R.cache N = some v) :
    reload R (some N) = .ok { R with cache := delKey R.cache N }
    ∧ lookupStr (delKey R.cache N) N = none
    ∧ (∀ k, k ≠ N → lookupStr (delKey R.cache N) k = lookupStr R.cache k)
    ∧ (∀ env p d, read_config env { R with cache := delKey R.cache N } N p d =
        readConfigUncached env { R with cache := delKey R.cache N } N p d)
    ∧ reload R none = .ok { R with cache := [] } := by
  refine ⟨?_, lookupStr_delKey_self R.cache N,
    fun k hk => lookupStr_delKey_ne R.cache N k hk, ?_, rfl⟩
  · have ht : truthyStr (some N) = true := by simp [truthyStr, hN]
    unfold reload
    rw [ht]
    simp only [if_true]
    rw [hv]
    rfl
  · intro env p d
    unfold read_config
    rw [show lookupStr ({ R with cache := delKey R.cache N } :
        CachedConfigReader).cache N = none from lookupStr_delKey_self R.cache N]

/-- Witness for C8: on the two-entry reader, `reload("app.yaml")` leaves
exactly the `other.conf` entry, and `reload()` clears the cache. -/
theorem claim_C8_witness :
    reload readerTwo (some "app.yaml") =
      .ok { readerTwo with cache := [("other.conf", Value.vdict [("k", Value.vint 2)])] }
    ∧ reload readerTwo none = .ok { readerTwo with cache := [] } := by
  have h := claim_C8_reload_evicts readerTwo "app.yaml" (Value.vdict [])
    (by decide) rfl
  exact ⟨h.1, h.2.2.2.2⟩

/-- C9 (confirmed): whenever `read_config` raises — the strict-mode
`ConfigurationError`, a `KeyError` from parser resolution, or any error
propagated from the parser — the reader is left exactly as it was, the
name was (and stays) absent from the cache, and any subsequent
`read_config` for that name runs the full uncached path (resolution and
parsing) again. -/
theorem claim_C9_error_leaves_cache (env : PyEnv) (R : CachedConfigReader)
    (N : String) (p : Option ParserArg) (d : Value) (e : PyError)
    (R' : CachedConfigReader) (calls : List (ParserKind × String))
    (h : read_config env R N p d = ⟨.error e, R', calls⟩) :
    R' = R ∧ lookupStr R.cache N = none
    ∧ (∀ p' d', read_config env R N p' d' = readConfigUncached env R N p' d') := by
  unfold read_config at h
  cases hl : lookupStr R.cache N with
  | some w =>
    rw [hl] at h
    simp at h
  | none =>
    rw [hl] at h
    refine ⟨readConfigUncached_error_state env R N p d e R' calls h, rfl, ?_⟩
    intro p' d'
    unfold read_config
    rw [hl]

/-- Witness for C9: the strict-mode failure on the file-less environment
leaves `conf` uncached. -/
theorem claim_C9_witness :
    lookupStr reader0.cache "conf" = none :=
  (claim_C9_error_leaves_cache envNone reader0 "conf" none (Value.vstr "raise")
    (.configurationError "Configuration file not found: %s" "/etc/app/conf")
    reader0 [] rfl).2.1

/-- C10 (confirmed): `reload(N)` for a non-empty name with no cache entry
raises `KeyError(N)` (from `del self.cache[config]`) instead of being a
no-op. -/
theorem claim_C10_reload_missing_raises (R : CachedConfigReader) (N : String)
    (hN : N ≠ "") (hmiss : lookupStr R.cache N = none) :
    reload R (some N) = .error (.keyError N) := by
  have ht : truthyStr (some N) = true := by simp [truthyStr, hN]
  unfold reload
  rw [ht]
  simp only [if_true]
  rw [hmiss]
  rfl

/-- Witness for C10: reloading the never-read name `missing` on the fresh
reader raises `KeyError`. -/
theorem claim_C10_witness :
    reload reader0 (some "missing") = .error (.keyError "missing") :=
  claim_C10_reload_missing_raises reader0 "missing" (by decide) rfl
